import Mathlib

set_option maxRecDepth 40000

/-!
Verification of the ImageResizerTool repository (Go).

The development shallowly embeds the program's core logic in Lean:

* The resolution solver `calculateMaxResolution` (the final variant, with DPI
  quantization) together with its helpers `getBytesPerPixel`, the per-iteration
  width/stride computations and the estimate update.
* The DPI extraction and fallback logic of `extractDPI` / `processFile`.
* The diagnostic message queue `safePrint` / `flushMessages`.
* The zero-argument control path of `main` and the `Action` closure.
* The effect skeleton of the two `resizeImage` variants (dry-run handling).

Modelling conventions.  Go's `float64` arithmetic is modelled as exact real
arithmetic: the only facts the algorithm extracts from floats are the integer
floors of quotients and of square roots, and for nonnegative rational inputs
`floor (sqrt q) = Nat.sqrt (floor q)` and `floor ((a*c)/b) = a*c/b` in natural
division, so every intermediate value is an exact natural number.  Go's `int`
and `int64` are modelled as unbounded integers (no input reachable by the
program overflows them).  A run-time panic (integer division by zero in
`width % dpi` when `dpi = 0`) is modelled by a dedicated result constructor.
File-system, codec, progress-bar and EXIF I/O are external collaborators; only
their outcomes, as consumed by the embedded control flow, are represented.
-/

/-- PixelFormat enumeration, from the source (`type PixelFormat int` with the
three constants `Format8bppIndexed`, `Format24bppRgb`, `Format32bppArgb`). -/
inductive PixelFormat where
  | Format8bppIndexed
  | Format24bppRgb
  | Format32bppArgb
deriving DecidableEq

/-- Embeds `getBytesPerPixel` (part_001 lines 68-77): 1 byte for indexed,
4 bytes for RGB and ARGB.  The Go `default: panic` branch is unreachable
because the inductive type has exactly the three declared constants. -/
def getBytesPerPixel : PixelFormat → Nat
  | PixelFormat.Format8bppIndexed => 1
  | PixelFormat.Format24bppRgb => 4
  | PixelFormat.Format32bppArgb => 4

/-- Fuelled base-4 digit recursion computing the floor of the real square
root.  The fuel only bounds the recursion depth (the radicand shrinks by a
factor of 4 each step); `isqrtAux_spec` characterizes the result whenever
`n ≤ fuel`. -/
def isqrtAux : Nat → Nat → Nat
  | 0, _ => 0
  | fuel + 1, n =>
    if n = 0 then 0
    else
      if (2 * isqrtAux fuel (n / 4) + 1) * (2 * isqrtAux fuel (n / 4) + 1) ≤ n
      then 2 * isqrtAux fuel (n / 4) + 1
      else 2 * isqrtAux fuel (n / 4)

/-- Floor of the real square root, `int(math.Floor(math.Sqrt q))` for a
natural radicand.  Implemented by a kernel-evaluable digit recursion so that
the solver can be run on concrete inputs; `isqrt_eq_sqrt` identifies it with
`Nat.sqrt`. -/
def isqrt (n : Nat) : Nat := isqrtAux n n

/-- Loop-body width (part_001 line 54):
`width := int(math.Floor(aspectRatio * float64(height)))` with
`aspectRatio = originalWidth / originalHeight`; in exact arithmetic the floor
of `(W / H) * h` is the natural-division quotient `W * h / H`. -/
def widthAt (origW origH h : Nat) : Nat := origW * h / origH

/-- Loop-body stride (part_001 line 55):
`stride := (width*bytesPerPixel + alignment - 1) / alignment * alignment`,
i.e. `width * bpp` rounded up to the next multiple of `alignment`. -/
def strideOf (w b a : Nat) : Nat := (w * b + a - 1) / a * a

/-- Estimate update (part_001 line 64):
`estimatedHeight = math.Sqrt(float64(memoryLimit) / (float64(stride) * float64(bytesPerPixel)))`.
Only `int(math.Floor(estimatedHeight))` is ever consumed, which in exact
arithmetic is `isqrt (budget / (stride * bpp))`. -/
def nextEstimate (budget s b : Nat) : Nat := isqrt (budget / (s * b))

/-- Initial estimate (part_001 line 50):
`estimatedHeight := math.Sqrt(float64(memoryLimit) / (float64(bytesPerPixel) * aspectRatio))`;
its floor in exact arithmetic is `isqrt (budget * H / (b * W))`. -/
def initialEstimate (origW origH b budget : Nat) : Nat :=
  isqrt (budget * origH / (b * origW))

/-- Outcome of one call to the solver.  `ok w h` is a normal return;
`divByZero` models the Go run-time panic raised by `width % dpi` when
`dpi = 0`; `outOfFuel` is an artifact of the fuelled embedding of the
unbounded `for` loop and is proved unreachable. -/
inductive GoResult where
  | ok (width height : Nat)
  | divByZero
  | outOfFuel
deriving DecidableEq

/-- Embeds the `for` loop of `calculateMaxResolution` (part_001 lines 52-65).
Each iteration computes `height`, `width`, `stride`, `totalMemory`; if the
total fits the budget it snaps the width down to a multiple of `dpi`
(`newWidth := width - (width % dpi)`, a division by zero when `dpi = 0`) and
recomputes the height from the snapped width
(`newHeight := int(float64(newWidth) / aspectRatio)`, i.e. `newW * H / W`);
otherwise it recurses on the shrunken estimate.  The fuel argument makes the
loop structurally recursive; `solveLoop_ok_of_lt` shows fuel `h + 1` always
suffices. -/
def solveLoop (origW origH b a budget dpi : Nat) : Nat → Nat → GoResult
  | 0, _ => GoResult.outOfFuel
  | fuel + 1, h =>
    if strideOf (widthAt origW origH h) b a * h ≤ budget then
      if dpi = 0 then GoResult.divByZero
      else
        GoResult.ok (widthAt origW origH h - widthAt origW origH h % dpi)
          ((widthAt origW origH h - widthAt origW origH h % dpi) * origH / origW)
    else
      solveLoop origW origH b a budget dpi fuel
        (nextEstimate budget (strideOf (widthAt origW origH h) b a) b)

/-- Embeds `calculateMaxResolution` (part_001 lines 47-66), the final variant
with the `dpi` parameter: seed the estimated height from the budget and run
the iterative search. -/
def calculateMaxResolution (origW origH : Nat) (fmt : PixelFormat)
    (a budget dpi : Nat) : GoResult :=
  solveLoop origW origH (getBytesPerPixel fmt) a budget dpi
    (initialEstimate origW origH (getBytesPerPixel fmt) budget + 1)
    (initialEstimate origW origH (getBytesPerPixel fmt) budget)

/-- The failure points of `extractDPI` (part_001 lines 90-127), in source
order: file open, `exif.Decode`, `Get(XResolution)`, `Get(YResolution)`,
`XResolution.Rat2`, `YResolution.Rat2`. -/
inductive ExtractErr where
  | openFailed
  | noExifData
  | noXResolution
  | noYResolution
  | badXResolution
  | badYResolution
deriving DecidableEq

/-- An EXIF resolution tag as consumed by `extractDPI`: its `Rat2(0)` call
either fails or yields a numerator/denominator pair of int64s. -/
structure ExifTag where
  rat2 : Option (Int × Int)
deriving DecidableEq

/-- The EXIF payload of a file as consumed by `extractDPI`: each of the two
resolution tags is present or absent. -/
structure ExifData where
  xResolution : Option ExifTag
  yResolution : Option ExifTag
deriving DecidableEq

/-- A file as observed by `extractDPI`: whether `os.Open` succeeds and, if
`exif.Decode` succeeds, the decoded payload. -/
structure FileMeta where
  openOk : Bool
  exifData : Option ExifData
deriving DecidableEq

/-- Go's `int(float64(num) / float64(den))` on an exact ratio: truncation
toward zero, `Int.tdiv`.  (A zero denominator — an infinity in Go — is not
modelled; the claims constrain denominators to be positive.) -/
def ratToInt (num den : Int) : Int := num.tdiv den

/-- Embeds `extractDPI` (part_001 lines 90-127).  Each failure point returns
the corresponding error.  When everything succeeds the source compares
`x == y` (modelled for exact ratios by cross-multiplication) but returns
`int(x)` in both branches, so a horizontal/vertical mismatch is not an
error. -/
def extractDPI (f : FileMeta) : Except ExtractErr Int :=
  if f.openOk = false then Except.error ExtractErr.openFailed
  else
    match f.exifData with
    | none => Except.error ExtractErr.noExifData
    | some e =>
      match e.xResolution with
      | none => Except.error ExtractErr.noXResolution
      | some xTag =>
        match e.yResolution with
        | none => Except.error ExtractErr.noYResolution
        | some yTag =>
          match xTag.rat2 with
          | none => Except.error ExtractErr.badXResolution
          | some xr =>
            match yTag.rat2 with
            | none => Except.error ExtractErr.badYResolution
            | some yr =>
              if xr.1 * yr.2 = yr.1 * xr.2 then Except.ok (ratToInt xr.1 xr.2)
              else Except.ok (ratToInt xr.1 xr.2)

/-- Embeds the DPI resolution step of `processFile` (part_001 lines 317-328):
a nonzero override wins without consulting metadata; with the override unset
(0), a successful extraction is used and any extraction error falls back to
the fixed default 72. -/
def resolveDPI (overrideDPI : Int) (f : FileMeta) : Int :=
  if overrideDPI = 0 then
    match extractDPI f with
    | Except.ok extractedDPI => extractedDPI
    | Except.error _ => 72
  else overrideDPI

/-- A file whose EXIF metadata carries X resolution 300/1 and Y resolution
72/1 — present, readable, but mismatched. -/
def fmMismatch : FileMeta :=
  ⟨true, some ⟨some ⟨some (300, 1)⟩, some ⟨some (72, 1)⟩⟩⟩

/-- A file that opens fine but has no EXIF data. -/
def fmNoExif : FileMeta := ⟨true, none⟩

/-- Embeds `safePrint` (part_001 lines 32-36): append one message to the
mutex-guarded global queue.  The mutex serializes appends; the embedding
models the resulting queue contents. -/
def safePrint (queue : List String) (message : String) : List String :=
  queue ++ [message]

/-- Embeds `flushMessages` (part_001 lines 38-45): print every queued
message in order, then set the queue to nil.  The first component is the
printed output, the second the queue afterwards. -/
def flushMessages (queue : List String) : List String × List String :=
  (queue, [])

/-- Observable outcome of one program invocation, for the zero-argument
control path: the process exit status, the lines actually printed to the
user, the contents of the diagnostic queue left unflushed at exit, and the
paths handed to `processPath`. -/
structure MainOutcome where
  exitCode : Nat
  printed : List String
  queued : List String
  processedPaths : List String
deriving DecidableEq

/-- Embeds the argument check of the cli `Action` (part_001 lines 247-249):
zero positional arguments return the error
`no input files or directories provided` before any path is processed;
otherwise the positional paths are processed in order. -/
def actionCheckArgs (args : List String) : Except String (List String) :=
  if args.length = 0 then Except.error "no input files or directories provided"
  else Except.ok args

/-- Embeds the console entry path of `main` (part_001 lines 182-261) around
`app.Run`.  A non-ExitCoder error returned by the Action is handed back to
`main`, which passes `Error: <msg>` to `safePrint` — appending it to the
diagnostic queue — and then falls off the end of `main`: no `os.Exit` call
is made, so the process exit status is 0, and nothing flushes the queue on
this path, so nothing is printed.  Per-file processing effects on the
success path are external collaborators (spec section 1) and are represented
only by the list of paths handed to `processPath`. -/
def goMain (args : List String) : MainOutcome :=
  match actionCheckArgs args with
  | Except.error msg => ⟨0, [], safePrint [] (String.append "Error: " msg), []⟩
  | Except.ok paths => ⟨0, [], [], paths⟩

/-- Per-file effect summary of one `resizeImage` call: whether the solver
ran, whether the resize was logged, and whether the encoded output file was
written. -/
structure ResizeEffects where
  solverRan : Bool
  logged : Bool
  wrote : Bool
deriving DecidableEq

/-- The caller-side gate `newWidth < originalWidth || newHeight < originalHeight`. -/
def needsDownscale (origW origH newW newH : Nat) : Bool :=
  decide (newW < origW) || decide (newH < origH)

/-- Embeds the effect skeleton of `resizeImage` in part_000 lines 113-142,
the variant that honours dry-run: the solver always runs; when the target is
strictly smaller in some dimension the resize is logged; the output is
written only when additionally `!dryRun`. -/
def resizeImageEffects_v000 (dryRun : Bool) (origW origH newW newH : Nat) :
    ResizeEffects :=
  ⟨true, needsDownscale origW origH newW newH,
    needsDownscale origW origH newW newH && !dryRun⟩

/-- Embeds the effect skeleton of `resizeImage` in part_001 lines 129-155,
the final variant: the `dryRun` parameter is accepted but never read, so the
write happens whenever the downscale gate fires, dry-run or not. -/
def resizeImageEffects_v001 (dryRun : Bool) (origW origH newW newH : Nat) :
    ResizeEffects :=
  ⟨true, needsDownscale origW origH newW newH,
    needsDownscale origW origH newW newH⟩

theorem isqrtAux_spec :
    ∀ fuel n, n ≤ fuel →
      isqrtAux fuel n * isqrtAux fuel n ≤ n ∧
      n < (isqrtAux fuel n + 1) * (isqrtAux fuel n + 1) := by
  intro fuel
  induction fuel with
  | zero =>
    intro n hn
    have hn0 : n = 0 := Nat.le_zero.mp hn
    subst hn0
    exact ⟨Nat.le_refl 0, by decide⟩
  | succ m ih =>
    intro n hn
    rw [isqrtAux]
    by_cases hz : n = 0
    · subst hz
      rw [if_pos rfl]
      exact ⟨Nat.le_refl 0, by decide⟩
    · rw [if_neg hz]
      have hrec : n / 4 ≤ m := by
        have hlt : n / 4 < n := Nat.div_lt_self (Nat.pos_of_ne_zero hz) (by decide)
        omega
      obtain ⟨ihl, ihr⟩ := ih (n / 4) hrec
      by_cases hcand :
          (2 * isqrtAux m (n / 4) + 1) * (2 * isqrtAux m (n / 4) + 1) ≤ n
      · rw [if_pos hcand]
        refine ⟨hcand, ?_⟩
        have hring :
            (2 * isqrtAux m (n / 4) + 1 + 1) * (2 * isqrtAux m (n / 4) + 1 + 1) =
              4 * ((isqrtAux m (n / 4) + 1) * (isqrtAux m (n / 4) + 1)) := by ring
        rw [hring]
        generalize (isqrtAux m (n / 4) + 1) * (isqrtAux m (n / 4) + 1) = s at ihr ⊢
        omega
      · rw [if_neg hcand]
        constructor
        · have hring :
              2 * isqrtAux m (n / 4) * (2 * isqrtAux m (n / 4)) =
                4 * (isqrtAux m (n / 4) * isqrtAux m (n / 4)) := by ring
          rw [hring]
          generalize isqrtAux m (n / 4) * isqrtAux m (n / 4) = t at ihl ⊢
          omega
        · exact Nat.not_le.mp hcand

theorem isqrt_sq_le (n : Nat) : isqrt n * isqrt n ≤ n :=
  (isqrtAux_spec n n (Nat.le_refl n)).1

theorem lt_isqrt_succ (n : Nat) : n < (isqrt n + 1) * (isqrt n + 1) :=
  (isqrtAux_spec n n (Nat.le_refl n)).2

theorem isqrt_eq_sqrt (n : Nat) : isqrt n = Nat.sqrt n :=
  Nat.le_antisymm (Nat.le_sqrt.mpr (isqrt_sq_le n))
    (Nat.lt_succ_iff.mp (Nat.sqrt_lt.mpr (lt_isqrt_succ n)))

/-- If `q < h * h` then `isqrt q < h`. -/
theorem isqrt_lt_of_lt_sq {q h : Nat} (hq : q < h * h) : isqrt q < h := by
  by_contra hle
  push_neg at hle
  exact absurd (Nat.le_trans (Nat.mul_le_mul hle hle) (isqrt_sq_le q)) (Nat.not_le.mpr hq)

example :
    calculateMaxResolution 6 4 PixelFormat.Format32bppArgb 4 1000 0 =
      GoResult.divByZero := by decide

example :
    calculateMaxResolution 1 1 PixelFormat.Format8bppIndexed 1 100 1 =
      GoResult.ok 10 10 := by decide

example :
    calculateMaxResolution 1 1 PixelFormat.Format8bppIndexed 10 50 1 =
      GoResult.ok 2 2 := by decide

theorem bpp_pos (fmt : PixelFormat) : 1 ≤ getBytesPerPixel fmt := by
  cases fmt <;> decide

theorem strideOf_mono (b a : Nat) {w w' : Nat} (h : w ≤ w') :
    strideOf w b a ≤ strideOf w' b a := by
  unfold strideOf
  have hm : w * b ≤ w' * b := Nat.mul_le_mul h (Nat.le_refl b)
  exact Nat.mul_le_mul (Nat.div_le_div_right (by omega)) (Nat.le_refl a)

theorem widthAt_mono (origW origH : Nat) {h h' : Nat} (hh : h ≤ h') :
    widthAt origW origH h ≤ widthAt origW origH h' :=
  Nat.div_le_div_right (Nat.mul_le_mul (Nat.le_refl origW) hh)

theorem widthAt_mul_le (origW origH h : Nat) :
    widthAt origW origH h * origH ≤ origW * h :=
  Nat.div_mul_le_self _ _

theorem widthAt_self {origW origH : Nat} (hH : 0 < origH) :
    widthAt origW origH origH = origW := by
  unfold widthAt
  exact Nat.mul_div_cancel _ hH

/-- The snapped height `newWidth * H / W` never exceeds the height of the
accepted iteration, provided the snapped width is at most that iteration's
width. -/
theorem snap_height_le {origW origH : Nat} (hW : 0 < origW) {hacc nw : Nat}
    (hnw : nw ≤ widthAt origW origH hacc) : nw * origH / origW ≤ hacc := by
  have h1 : nw * origH ≤ origW * hacc :=
    Nat.le_trans (Nat.mul_le_mul hnw (Nat.le_refl origH)) (widthAt_mul_le _ _ _)
  calc nw * origH / origW ≤ origW * hacc / origW := Nat.div_le_div_right h1
    _ = hacc := Nat.mul_div_cancel_left hacc hW

/-- A failing iteration (total memory above the budget) strictly decreases the
floored height estimate. -/
theorem nextEstimate_lt {budget s b h : Nat} (hb : 1 ≤ b)
    (hover : budget < s * h) : nextEstimate budget s b < h := by
  have hs : 0 < s := by
    rcases Nat.eq_zero_or_pos s with rfl | hs
    · omega
    · exact hs
  have hh : 0 < h := by
    rcases Nat.eq_zero_or_pos h with rfl | hh
    · omega
    · exact hh
  have h1 : budget / (s * b) ≤ budget / s :=
    Nat.div_le_div_left (Nat.le_mul_of_pos_right s hb) hs
  have h2 : budget / s < h :=
    (Nat.div_lt_iff_lt_mul hs).mpr (Nat.mul_comm s h ▸ hover)
  have h3 : budget / (s * b) < h * h :=
    Nat.lt_of_le_of_lt h1 (Nat.lt_of_lt_of_le h2 (Nat.le_mul_of_pos_left h hh))
  exact isqrt_lt_of_lt_sq h3

/-- Any normal return of the loop comes from an accepted iteration: some
height `hacc` whose width/stride fit the budget, with the returned width the
DPI-snapped width of that iteration and the returned height recomputed from
the snapped width. -/
theorem solveLoop_ok_inv {origW origH b a budget dpi : Nat} :
    ∀ {fuel h w hgt : Nat},
      solveLoop origW origH b a budget dpi fuel h = GoResult.ok w hgt →
      ∃ hacc : Nat,
        strideOf (widthAt origW origH hacc) b a * hacc ≤ budget ∧
        w = widthAt origW origH hacc - widthAt origW origH hacc % dpi ∧
        hgt = w * origH / origW := by
  intro fuel
  induction fuel with
  | zero => intro h w hgt hres; simp [solveLoop] at hres
  | succ n ih =>
    intro h w hgt hres
    rw [solveLoop] at hres
    split at hres
    · split at hres
      · exact absurd hres (by simp)
      · rename_i hle hd
        injection hres with h1 h2
        exact ⟨h, hle, h1.symm, by rw [← h2, h1]⟩
    · exact ih hres

/-- Fuel one more than the current height estimate always suffices for a
normal return when `dpi ≠ 0`. -/
theorem solveLoop_ok_of_lt {origW origH b a budget dpi : Nat} (hb : 1 ≤ b)
    (hd : dpi ≠ 0) :
    ∀ fuel h, h < fuel →
      ∃ w hgt, solveLoop origW origH b a budget dpi fuel h = GoResult.ok w hgt := by
  intro fuel
  induction fuel with
  | zero => intro h hh; omega
  | succ n ih =>
    intro h hh
    rw [solveLoop]
    by_cases hle : strideOf (widthAt origW origH h) b a * h ≤ budget
    · rw [if_pos hle, if_neg hd]
      exact ⟨_, _, rfl⟩
    · rw [if_neg hle]
      push_neg at hle
      have hlt : nextEstimate budget (strideOf (widthAt origW origH h) b a) b < h :=
        nextEstimate_lt hb hle
      exact ih _ (by omega)

/-- With `dpi = 0` the loop always reaches an accepted iteration and then
fails with a division by zero in `width % dpi`. -/
theorem solveLoop_divByZero_of_lt {origW origH b a budget : Nat} (hb : 1 ≤ b) :
    ∀ fuel h, h < fuel →
      solveLoop origW origH b a budget 0 fuel h = GoResult.divByZero := by
  intro fuel
  induction fuel with
  | zero => intro h hh; omega
  | succ n ih =>
    intro h hh
    rw [solveLoop]
    by_cases hle : strideOf (widthAt origW origH h) b a * h ≤ budget
    · rw [if_pos hle, if_pos rfl]
    · rw [if_neg hle]
      push_neg at hle
      have hlt : nextEstimate budget (strideOf (widthAt origW origH h) b a) b < h :=
        nextEstimate_lt hb hle
      exact ih _ (by omega)

/-- C1: for every call to the resolution solver with positive original
dimensions, alignment and budget and `dpi ≥ 1`, the returned `(width, height)`
satisfies `ceil(width * bpp / alignment) * alignment * height ≤ budget`
(the aligned stride times the height fits the memory budget), where the
bytes-per-pixel is 1 for the indexed format and 4 for the RGB and ARGB
formats.  `strideOf w bpp a` is the source's
`(w*bpp + a - 1) / a * a`, which equals `ceil(w*bpp/a) * a` for `a ≥ 1`. -/
theorem C1_budget_respected (origW origH a budget dpi : Nat) (fmt : PixelFormat)
    (hW : 0 < origW) (hH : 0 < origH) (ha : 0 < a) (hbud : 0 < budget)
    (hdpi : 1 ≤ dpi) (w hgt : Nat)
    (hres : calculateMaxResolution origW origH fmt a budget dpi = GoResult.ok w hgt) :
    strideOf w (getBytesPerPixel fmt) a * hgt ≤ budget := by
  unfold calculateMaxResolution at hres
  obtain ⟨hacc, hle, hw, hhgt⟩ := solveLoop_ok_inv hres
  have hnw : w ≤ widthAt origW origH hacc := hw ▸ Nat.sub_le _ _
  have hhle : hgt ≤ hacc := hhgt ▸ snap_height_le hW hnw
  exact Nat.le_trans (Nat.mul_le_mul (strideOf_mono _ _ hnw) hhle) hle

theorem C1_budget_respected_witness :
    0 < 30 ∧ 0 < 20 ∧ 0 < 4 ∧ 0 < 1000 ∧ 1 ≤ 3 ∧
      calculateMaxResolution 30 20 PixelFormat.Format24bppRgb 4 1000 3 =
        GoResult.ok 18 12 ∧
      strideOf 18 (getBytesPerPixel PixelFormat.Format24bppRgb) 4 * 12 ≤ 1000 :=
  ⟨by decide, by decide, by decide, by decide, by decide, by decide,
    C1_budget_respected 30 20 4 1000 3 PixelFormat.Format24bppRgb (by decide)
      (by decide) (by decide) (by decide) (by decide) 18 12 (by decide)⟩

/-- C2 counterexample: with a 1×1 original, 8bpp-indexed format, alignment 1,
budget 100 bytes and `dpi = 1`, the solver returns 10×10 — strictly larger
than the original in both dimensions, so the solver does upscale. -/
theorem C2_counterexample :
    calculateMaxResolution 1 1 PixelFormat.Format8bppIndexed 1 100 1 =
      GoResult.ok 10 10 ∧ ¬(10 ≤ 1) := by decide

/-- C2 (amended): the solver never upscales provided the original image does
not already fit the budget (aligned original stride times original height
exceeds the budget); when the original fits, the returned dimensions can
exceed the original and the caller's `newW < origW || newH < origH` gate is
what prevents upscaling. -/
theorem C2_no_upscale_when_budget_exceeded (origW origH a budget dpi : Nat)
    (fmt : PixelFormat) (hW : 0 < origW) (hH : 0 < origH) (ha : 0 < a)
    (hdpi : 1 ≤ dpi)
    (hover : budget < strideOf origW (getBytesPerPixel fmt) a * origH)
    (w hgt : Nat)
    (hres : calculateMaxResolution origW origH fmt a budget dpi = GoResult.ok w hgt) :
    w ≤ origW ∧ hgt ≤ origH := by
  unfold calculateMaxResolution at hres
  obtain ⟨hacc, hle, hw, hhgt⟩ := solveLoop_ok_inv hres
  have hha : hacc ≤ origH := by
    by_contra hc
    push_neg at hc
    have h1 : origW ≤ widthAt origW origH hacc := by
      have h0 : widthAt origW origH origH ≤ widthAt origW origH hacc :=
        widthAt_mono _ _ (Nat.le_of_lt hc)
      rwa [widthAt_self hH] at h0
    have h5 : budget < strideOf (widthAt origW origH hacc)
        (getBytesPerPixel fmt) a * hacc :=
      calc budget < strideOf origW (getBytesPerPixel fmt) a * origH := hover
        _ ≤ strideOf origW (getBytesPerPixel fmt) a * (origH + 1) :=
          Nat.mul_le_mul (Nat.le_refl _) (Nat.le_succ _)
        _ ≤ strideOf (widthAt origW origH hacc) (getBytesPerPixel fmt) a * hacc :=
          Nat.mul_le_mul (strideOf_mono _ _ h1) hc
    exact absurd hle (Nat.not_le.mpr h5)
  have hnw : w ≤ widthAt origW origH hacc := hw ▸ Nat.sub_le _ _
  have hwle : w ≤ origW := by
    have h0 : widthAt origW origH hacc ≤ widthAt origW origH origH :=
      widthAt_mono _ _ hha
    rw [widthAt_self hH] at h0
    exact Nat.le_trans hnw h0
  exact ⟨hwle, hhgt ▸ Nat.le_trans (snap_height_le hW hnw) hha⟩

theorem C2_no_upscale_witness :
    0 < 60 ∧ 0 < 40 ∧ 0 < 4 ∧ 1 ≤ 1 ∧
      2000 < strideOf 60 (getBytesPerPixel PixelFormat.Format32bppArgb) 4 * 40 ∧
      calculateMaxResolution 60 40 PixelFormat.Format32bppArgb 4 2000 1 =
        GoResult.ok 27 18 ∧
      (27 ≤ 60 ∧ 18 ≤ 40) :=
  ⟨by decide, by decide, by decide, by decide, by decide, by decide,
    C2_no_upscale_when_budget_exceeded 60 40 4 2000 1 PixelFormat.Format32bppArgb
      (by decide) (by decide) (by decide) (by decide) (by decide) 27 18 (by decide)⟩

/-- C3 counterexample: with `dpi = 0` (the "off" sentinel) and otherwise valid
arguments (6×4 ARGB original, alignment 4, budget 1000), the solver does not
terminate normally: the accepted iteration executes `width % dpi` with
`dpi = 0`, a Go runtime panic (integer division by zero), modelled by
`GoResult.divByZero`.  No width/height pair is returned. -/
theorem C3_counterexample :
    calculateMaxResolution 6 4 PixelFormat.Format32bppArgb 4 1000 0 =
      GoResult.divByZero := by decide

/-- C3 (amended): `dpi = 0` is not a harmless "no quantization" sentinel for
the solver.  For every input with positive dimensions, alignment and budget,
the solver with `dpi = 0` always reaches the snap step
`newWidth := width - (width % dpi)` and panics there with an integer division
by zero; it never returns a dimension pair.  Callers must supply `dpi ≥ 1`
(`processFile` resolves 0 to an extracted value or the default 72 before
calling). -/
theorem C3_dpi_zero_division_panic (origW origH a budget : Nat)
    (fmt : PixelFormat) (hW : 0 < origW) (hH : 0 < origH) (ha : 0 < a)
    (hbud : 0 < budget) :
    calculateMaxResolution origW origH fmt a budget 0 = GoResult.divByZero := by
  unfold calculateMaxResolution
  exact solveLoop_divByZero_of_lt (bpp_pos fmt) _ _ (Nat.lt_succ_self _)

theorem C3_dpi_zero_witness :
    0 < 8 ∧ 0 < 6 ∧ 0 < 4 ∧ 0 < 500 ∧
      calculateMaxResolution 8 6 PixelFormat.Format24bppRgb 4 500 0 =
        GoResult.divByZero :=
  ⟨by decide, by decide, by decide, by decide,
    C3_dpi_zero_division_panic 8 6 4 500 PixelFormat.Format24bppRgb (by decide)
      (by decide) (by decide) (by decide)⟩

/-- C4: for every valid input the solver's iterative loop terminates with a
normal return, and whenever an iteration fails the budget check
(`stride * height > budget`), the next iteration's height
`floor(sqrt(budget / (stride * bpp)))` is strictly smaller, and the next
iteration's stride (computed from the strictly smaller height) is at most the
current stride. -/
theorem C4_loop_terminates (origW origH a budget dpi : Nat) (fmt : PixelFormat)
    (hW : 0 < origW) (hH : 0 < origH) (ha : 0 < a) (hbud : 0 < budget)
    (hdpi : 1 ≤ dpi) :
    (∃ w hgt,
      calculateMaxResolution origW origH fmt a budget dpi = GoResult.ok w hgt) ∧
    (∀ h : Nat,
      budget < strideOf (widthAt origW origH h) (getBytesPerPixel fmt) a * h →
      nextEstimate budget (strideOf (widthAt origW origH h) (getBytesPerPixel fmt) a)
          (getBytesPerPixel fmt) < h ∧
      strideOf (widthAt origW origH
            (nextEstimate budget
              (strideOf (widthAt origW origH h) (getBytesPerPixel fmt) a)
              (getBytesPerPixel fmt)))
          (getBytesPerPixel fmt) a ≤
        strideOf (widthAt origW origH h) (getBytesPerPixel fmt) a) := by
  constructor
  · unfold calculateMaxResolution
    exact solveLoop_ok_of_lt (bpp_pos fmt) (by omega) _ _ (Nat.lt_succ_self _)
  · intro h hov
    have hlt := nextEstimate_lt (bpp_pos fmt) hov
    exact ⟨hlt, strideOf_mono _ _ (widthAt_mono _ _ (Nat.le_of_lt hlt))⟩

theorem C4_loop_terminates_witness :
    0 < 7 ∧ 0 < 5 ∧ 0 < 2 ∧ 0 < 300 ∧ 1 ≤ 2 ∧
      (∃ w hgt,
        calculateMaxResolution 7 5 PixelFormat.Format8bppIndexed 2 300 2 =
          GoResult.ok w hgt) :=
  ⟨by decide, by decide, by decide, by decide, by decide,
    (C4_loop_terminates 7 5 2 300 2 PixelFormat.Format8bppIndexed (by decide)
      (by decide) (by decide) (by decide) (by decide)).1⟩

/-- C5: for every solver output `(w, hgt)` from a valid input (with a
positive returned height, so that the output ratio is defined), the output
aspect ratio `w / hgt` differs from the original `origW / origH` by at most
the integer-rounding tolerance `(origW / origH) / hgt` — the slack introduced
by flooring the recomputed height, including after the DPI snap recomputes
the height from the snapped width. -/
theorem C5_aspect_ratio_preserved (origW origH a budget dpi : Nat)
    (fmt : PixelFormat) (hW : 0 < origW) (hH : 0 < origH) (hdpi : 1 ≤ dpi)
    (w hgt : Nat)
    (hres : calculateMaxResolution origW origH fmt a budget dpi = GoResult.ok w hgt)
    (hh : 0 < hgt) :
    |(w : ℚ) / (hgt : ℚ) - (origW : ℚ) / (origH : ℚ)| ≤
      ((origW : ℚ) / (origH : ℚ)) / (hgt : ℚ) := by
  unfold calculateMaxResolution at hres
  obtain ⟨hacc, hle, hw, hhgt⟩ := solveLoop_ok_inv hres
  subst hhgt
  have f1 : w * origH / origW * origW ≤ w * origH := Nat.div_mul_le_self _ _
  have f2 : w * origH < (w * origH / origW + 1) * origW :=
    (Nat.div_lt_iff_lt_mul hW).mp (Nat.lt_succ_self _)
  have hgtq : (0 : ℚ) < (w * origH / origW : Nat) := by exact_mod_cast hh
  have hHq : (0 : ℚ) < (origH : ℚ) := by exact_mod_cast hH
  have f1q : (origW : ℚ) * (w * origH / origW : Nat) ≤ (w : ℚ) * origH := by
    calc (origW : ℚ) * (w * origH / origW : Nat)
        = ((w * origH / origW * origW : Nat) : ℚ) := by push_cast; ring
      _ ≤ ((w * origH : Nat) : ℚ) := by exact_mod_cast f1
      _ = (w : ℚ) * origH := by push_cast; ring
  have f2q : (w : ℚ) * origH ≤ (origW : ℚ) * ((w * origH / origW : Nat) + 1) := by
    calc (w : ℚ) * origH = ((w * origH : Nat) : ℚ) := by push_cast; ring
      _ ≤ (((w * origH / origW + 1) * origW : Nat) : ℚ) := by
          exact_mod_cast Nat.le_of_lt f2
      _ = (origW : ℚ) * ((w * origH / origW : Nat) + 1) := by push_cast; ring
  have low : (origW : ℚ) / origH ≤ (w : ℚ) / (w * origH / origW : Nat) := by
    rw [div_le_div_iff₀ hHq hgtq]
    linarith
  have high : (w : ℚ) / (w * origH / origW : Nat) ≤
      (origW : ℚ) / origH + ((origW : ℚ) / origH) / (w * origH / origW : Nat) := by
    have hcomb : (origW : ℚ) / origH + ((origW : ℚ) / origH) / (w * origH / origW : Nat) =
        ((origW : ℚ) * ((w * origH / origW : Nat) + 1)) /
          ((origH : ℚ) * (w * origH / origW : Nat)) := by
      field_simp
      ring
    rw [hcomb, div_le_div_iff₀ hgtq (by positivity)]
    nlinarith [f2q, hgtq.le]
  have hnn : (0 : ℚ) ≤ ((origW : ℚ) / origH) / (w * origH / origW : Nat) := by
    positivity
  rw [abs_sub_le_iff]
  constructor
  · linarith
  · linarith

theorem C5_aspect_ratio_witness :
    0 < 3 ∧ 0 < 2 ∧ 1 ≤ 1 ∧
      calculateMaxResolution 3 2 PixelFormat.Format8bppIndexed 1 48 1 =
        GoResult.ok 7 4 ∧ 0 < 4 ∧
      |((7 : Nat) : ℚ) / ((4 : Nat) : ℚ) - ((3 : Nat) : ℚ) / ((2 : Nat) : ℚ)| ≤
        (((3 : Nat) : ℚ) / ((2 : Nat) : ℚ)) / ((4 : Nat) : ℚ) :=
  ⟨by decide, by decide, by decide, by decide, by decide,
    C5_aspect_ratio_preserved 3 2 1 48 1 PixelFormat.Format8bppIndexed
      (by decide) (by decide) (by decide) 7 4 (by decide) (by decide)⟩

/-- C6 counterexample: on a file with mismatched X/Y resolutions (300 vs 72),
extraction does not fail — it returns 300 — and the resolver with the
override unset returns 300, not the fixed default 72 that the claim requires
for mismatched horizontal/vertical values. -/
theorem C6_counterexample :
    resolveDPI 0 fmMismatch = 300 ∧
      extractDPI fmMismatch = Except.ok 300 ∧ (300 : Int) ≠ 72 :=
  ⟨rfl, rfl, by decide⟩

/-- C6 (amended): a nonzero override always wins and metadata is not
consulted; with the override unset, every extraction *error* (failed open,
absent or corrupt EXIF, missing or unreadable resolution tags) falls back to
the fixed default 72, and a successful extraction — which includes the
mismatched-resolutions case — is used as is.  Extraction never raises a
fatal error to the caller: `resolveDPI` is total. -/
theorem C6_override_and_fallback :
    (∀ (o : Int) (f : FileMeta), o ≠ 0 → resolveDPI o f = o) ∧
    (∀ (f : FileMeta) (e : ExtractErr),
      extractDPI f = Except.error e → resolveDPI 0 f = 72) ∧
    (∀ (f : FileMeta) (d : Int),
      extractDPI f = Except.ok d → resolveDPI 0 f = d) := by
  refine ⟨?_, ?_, ?_⟩
  · intro o f ho
    unfold resolveDPI
    rw [if_neg ho]
  · intro f e he
    unfold resolveDPI
    rw [if_pos rfl, he]
  · intro f d hd
    unfold resolveDPI
    rw [if_pos rfl, hd]

theorem C6_override_and_fallback_witness :
    ((96 : Int) ≠ 0 ∧ resolveDPI 96 fmNoExif = 96) ∧
    (extractDPI fmNoExif = Except.error ExtractErr.noExifData ∧
      resolveDPI 0 fmNoExif = 72) :=
  ⟨⟨by decide, C6_override_and_fallback.1 96 fmNoExif (by decide)⟩,
   ⟨rfl, C6_override_and_fallback.2.1 fmNoExif ExtractErr.noExifData rfl⟩⟩

/-- C10: for every file whose EXIF metadata yields both resolutions with
positive denominators but differing values, DPI extraction succeeds with no
error and returns the truncated X resolution; the mismatch alone never
produces an extraction failure, so it never triggers the caller's fallback
to the default 72. -/
theorem C10_mismatch_returns_x (xn xd yn yd : Int) (hxd : 0 < xd)
    (hyd : 0 < yd) (hne : xn * yd ≠ yn * xd) :
    extractDPI ⟨true, some ⟨some ⟨some (xn, xd)⟩, some ⟨some (yn, yd)⟩⟩⟩ =
      Except.ok (ratToInt xn xd) ∧
    resolveDPI 0 ⟨true, some ⟨some ⟨some (xn, xd)⟩, some ⟨some (yn, yd)⟩⟩⟩ =
      ratToInt xn xd := by
  have hx : extractDPI ⟨true, some ⟨some ⟨some (xn, xd)⟩, some ⟨some (yn, yd)⟩⟩⟩ =
      Except.ok (ratToInt xn xd) := by
    show (if xn * yd = yn * xd then Except.ok (ratToInt xn xd)
          else Except.ok (ratToInt xn xd)) = Except.ok (ratToInt xn xd)
    split <;> rfl
  refine ⟨hx, ?_⟩
  unfold resolveDPI
  rw [if_pos rfl, hx]

theorem C10_mismatch_witness :
    (0 : Int) < 1 ∧ (0 : Int) < 1 ∧ (144 : Int) * 1 ≠ 72 * 1 ∧
      extractDPI ⟨true, some ⟨some ⟨some (144, 1)⟩, some ⟨some (72, 1)⟩⟩⟩ =
        Except.ok (ratToInt 144 1) ∧
      resolveDPI 0 ⟨true, some ⟨some ⟨some (144, 1)⟩, some ⟨some (72, 1)⟩⟩⟩ =
        ratToInt 144 1 :=
  ⟨by decide, by decide, by decide,
    (C10_mismatch_returns_x 144 1 72 1 (by decide) (by decide) (by decide)).1,
    (C10_mismatch_returns_x 144 1 72 1 (by decide) (by decide) (by decide)).2⟩

theorem foldl_safePrint (ms : List String) :
    ∀ q : List String, List.foldl safePrint q ms = q ++ ms := by
  induction ms with
  | nil => intro q; simp
  | cons m rest ih => intro q; simp [safePrint, ih]

/-- C9: after any sequence of appends to an initially empty diagnostic
queue, a flush prints exactly the appended messages, in the order they were
appended, and leaves the buffer empty — so a second flush with no
intervening appends prints nothing. -/
theorem C9_flush_in_order_and_clears (ms : List String) :
    flushMessages (List.foldl safePrint [] ms) = (ms, []) ∧
    flushMessages (flushMessages (List.foldl safePrint [] ms)).2 = ([], []) := by
  rw [foldl_safePrint ms []]
  simp [flushMessages]

/-- C7 (code bug): invoked with zero positional path arguments, the program
does produce a usage error before touching any file, but it does not
terminate the way the claim says: the exit code is 0 (main never calls
`os.Exit` after `app.Run` returns the error, and a plain `fmt.Errorf` error
is not a cli ExitCoder), and the message is only appended to the diagnostic
queue, which is never flushed on this path, so nothing is shown to the
user. -/
theorem C7_zero_args_outcome :
    goMain [] =
      ⟨0, [], ["Error: no input files or directories provided"], []⟩ ∧
    (goMain []).exitCode = 0 ∧ (goMain []).printed = [] ∧
    (goMain []).processedPaths = [] := by decide

/-- C8 (code bug): with the dry-run flag set and a file that needs
downscaling (6000×4000 original, 1935×1290 target), the final variant of
`resizeImage` (part_001, whose `dryRun` parameter is never consulted) still
writes the output file, while the part_000 variant — and the flag's own
usage text, `Simulate resizing without saving files` — runs the solver and
logging but suppresses the write. -/
theorem C8_dry_run_still_writes :
    resizeImageEffects_v001 true 6000 4000 1935 1290 =
      ⟨true, true, true⟩ ∧
    resizeImageEffects_v000 true 6000 4000 1935 1290 =
      ⟨true, true, false⟩ := by decide
